import Mathlib

/-!
Verification of the identity-provisioning backend: a shallow embedding of the
token-verification, authorization-guard and admin-orchestration code
(backend/app/auth.py, backend/app/keycloak_admin.py, backend/app/routes/users.py)
together with theorems settling the specification claims.
-/

/-! ## Token payload and authorization guard (auth.py) -/

/-- The realm_access sub-object of a token payload; the roles entry may be absent. -/
structure RealmAccess where
  roles : Option (List String)
deriving Repr, DecidableEq

/-- A decoded token payload, restricted to the claim path the guard reads;
realm_access may be absent. -/
structure TokenPayload where
  realm_access : Option RealmAccess
deriving Repr, DecidableEq

/-- The role list the guard reads: token_payload.get("realm_access", dict()).get("roles", list()).
Absence of either level defaults to the empty list. -/
def rolesOf (p : TokenPayload) : List String :=
  match p.realm_access with
  | none => []
  | some ra => ra.roles.getD []

/-- auth.is_superadmin: membership of the exact string "realm-admin" in the role list. -/
def is_superadmin (p : TokenPayload) : Bool :=
  (rolesOf p).contains "realm-admin"

/-- auth.require_superadmin: raises HTTP 403 unless is_superadmin holds. -/
def require_superadmin (p : TokenPayload) : Except Nat Unit :=
  if is_superadmin p then .ok () else .error 403

/-! ## Bearer-token extraction (auth.verify_bearer_token) -/

/-- The character sequence of the scheme marker string "Bearer " (seven characters). -/
def bearerChars : List Char := ['B', 'e', 'a', 'r', 'e', 'r', ' ']

/-- Whether the list begins with the seven scheme-marker characters,
as authorization.startswith tests. -/
def startsWithBearer : List Char → Bool
  | 'B' :: 'e' :: 'a' :: 'r' :: 'e' :: 'r' :: ' ' :: _ => true
  | _ => false

/-- Python str.replace of the scheme marker by the empty string: deletes every
left-to-right non-overlapping occurrence of the seven marker characters. -/
def dropBearer : List Char → List Char
  | 'B' :: 'e' :: 'a' :: 'r' :: 'e' :: 'r' :: ' ' :: rest => dropBearer rest
  | c :: cs => c :: dropBearer cs
  | [] => []

/-- Whether the marker occurs as a contiguous substring. -/
def containsBearer : List Char → Bool
  | 'B' :: 'e' :: 'a' :: 'r' :: 'e' :: 'r' :: ' ' :: _ => true
  | _ :: cs => containsBearer cs
  | [] => false

/-- auth.verify_bearer_token up to the point the token string is handed to decode_token:
returns the string passed on, or the 401 raised before decoding. A missing or empty
header and a header without the scheme marker are rejected. -/
def verify_bearer_token (authorization : Option (List Char)) : Except Nat (List Char) :=
  match authorization with
  | none => .error 401
  | some [] => .error 401
  | some a => if startsWithBearer a then .ok (dropBearer a) else .error 401

theorem startsWithBearer_append (t : List Char) : startsWithBearer (bearerChars ++ t) = true := rfl

theorem dropBearer_append (t : List Char) : dropBearer (bearerChars ++ t) = dropBearer t := rfl

theorem dropBearer_length_le (l : List Char) : (dropBearer l).length ≤ l.length := by
  induction l using dropBearer.induct <;> simp_all [dropBearer]
  omega

theorem dropBearer_length_lt (l : List Char) (h : containsBearer l = true) :
    (dropBearer l).length < l.length := by
  induction l using dropBearer.induct <;>
    simp_all [dropBearer, containsBearer]
  case case1 rest _ => exact Nat.lt_succ_of_le (le_trans (dropBearer_length_le rest) (by omega))

theorem dropBearer_of_not_contains (l : List Char) (h : containsBearer l = false) :
    dropBearer l = l := by
  induction l using dropBearer.induct <;> simp_all [dropBearer, containsBearer]

theorem is_superadmin_iff (p : TokenPayload) :
    is_superadmin p = true ↔ "realm-admin" ∈ rolesOf p := by
  simp [is_superadmin]

theorem require_superadmin_ok_iff (p : TokenPayload) :
    require_superadmin p = .ok () ↔ is_superadmin p = true := by
  unfold require_superadmin
  split <;> simp_all

/-- C1: the authorization guard allows the realm-admin check iff the string "realm-admin"
occurs verbatim in the role list found under the payload's realm_access.roles path; an
empty role list denies, an absent realm_access or roles claim defaults to the empty list
(hence denies), and matching is case-sensitive: a payload whose only role is "Realm-Admin"
is denied. The guard is a pure function of the payload. -/
theorem C1_superadmin_guard (p : TokenPayload) :
    (require_superadmin p = .ok () ↔ "realm-admin" ∈ rolesOf p)
    ∧ (rolesOf p = [] → require_superadmin p = .error 403)
    ∧ (p.realm_access = none → rolesOf p = [])
    ∧ (∀ ra, p.realm_access = some ra → ra.roles = none → rolesOf p = [])
    ∧ require_superadmin ⟨some ⟨some ["Realm-Admin"]⟩⟩ = .error 403 := by
  refine ⟨(require_superadmin_ok_iff p).trans (is_superadmin_iff p), ?_, ?_, ?_,
    by simp [require_superadmin, is_superadmin, rolesOf]⟩
  · intro h
    unfold require_superadmin is_superadmin
    simp [h]
  · intro h
    simp [rolesOf, h]
  · intro ra hra hroles
    simp [rolesOf, hra, hroles]

/-- Witness for C1 at a concrete payload with an empty role list: the guard denies. -/
theorem C1_superadmin_guard_witness :
    rolesOf ⟨some ⟨some []⟩⟩ = [] ∧ require_superadmin ⟨some ⟨some []⟩⟩ = .error 403 :=
  ⟨by decide, (C1_superadmin_guard ⟨some ⟨some []⟩⟩).2.1 (by decide)⟩

/-- C10: the extraction step deletes every occurrence of the scheme marker "Bearer "
from the Authorization header, not only the leading one: for a header of the form
"Bearer " ++ t, the string handed to token decoding is t with all marker occurrences
deleted, and that string equals t exactly when t does not contain the marker. -/
theorem C10_bearer_replace_all (t : List Char) :
    verify_bearer_token (some (bearerChars ++ t)) = .ok (dropBearer t)
    ∧ (dropBearer t = t ↔ containsBearer t = false) := by
  constructor
  · rfl
  · constructor
    · intro h
      cases hc : containsBearer t with
      | false => rfl
      | true =>
        have hlt := dropBearer_length_lt t hc
        rw [h] at hlt
        exact absurd hlt (lt_irrefl _)
    · exact dropBearer_of_not_contains t

/-- Witness for C10 at a concrete inner token that itself contains the marker:
the decoded string differs from the correctly stripped token. -/
theorem C10_bearer_replace_all_witness :
    verify_bearer_token (some (bearerChars ++ (bearerChars ++ ['x'])))
      = .ok (dropBearer (bearerChars ++ ['x']))
    ∧ dropBearer (bearerChars ++ ['x']) ≠ bearerChars ++ ['x'] := by
  refine ⟨(C10_bearer_replace_all (bearerChars ++ ['x'])).1, ?_⟩
  intro h
  have := (C10_bearer_replace_all (bearerChars ++ ['x'])).2.mp h
  exact absurd this (by decide)

/-! ## Settings (config.py) and token verification (auth.decode_token) -/

/-- config.Settings: the process configuration; jwt_algorithm defaults to "RS256".
These are all the fields the Settings class declares. -/
structure Settings where
  keycloak_url : String
  keycloak_realm : String
  keycloak_client_id : String
  keycloak_client_secret : String
  keycloak_admin_user : String
  keycloak_admin_password : String
  jwt_algorithm : String := "RS256"
deriving Repr, DecidableEq

/-- A public signing key as served by the authority's certs endpoint (the fields
decode_token copies into rsa_key). -/
structure Jwk where
  kid : String
  kty : String
  use : String
  n : String
  e : String
deriving Repr, DecidableEq

/-- A parsed bearer token: the unverified header fields (alg, kid), the expiry and
audience claims, the payload projected to what the guard reads, and an abstract
signature. Signature validity against a key is supplied as a relation, since the
cryptography itself is outside the model. -/
structure Token where
  alg : String
  kid : String
  exp : Int
  aud : Option String
  claims : TokenPayload
  sig : String
deriving Repr, DecidableEq

/-- Error kinds raised by the jose library during jwt.decode (all are surfaced as
JWTError to the caller, with distinct messages). -/
inductive JoseError where
  | algNotAllowed
  | invalidSignature
  | expiredSignature
  | invalidAudience
deriving Repr, DecidableEq

/-- Model of jose.jwt.decode: the declared algorithm must lie in the allow-list,
then the signature is verified against the key, then claims are validated — expiry
against the current time (zero leeway, the library default used here), and audience
only when the verify_aud option is set. The order matters: the library verifies the
signature before validating any claim. -/
def jose_decode (checkSig : Token → Jwk → Bool) (t : Token) (key : Jwk)
    (algorithms : List String) (expectedAud : String) (verifyAud : Bool) (now : Int) :
    Except JoseError TokenPayload :=
  if algorithms.contains t.alg = false then .error .algNotAllowed
  else if checkSig t key = false then .error .invalidSignature
  else if t.exp < now then .error .expiredSignature
  else if verifyAud then
    if t.aud = some expectedAud then .ok t.claims else .error .invalidAudience
  else .ok t.claims

/-- Errors raised by auth.decode_token, both mapped to HTTP 401. -/
inductive AuthError where
  | unknownKey
  | invalidToken (e : JoseError)
deriving Repr, DecidableEq

/-- The remote authority's current key set, as served by the certs endpoint. -/
structure Authority where
  jwks : List Jwk
deriving Repr, DecidableEq

/-- auth.get_jwks: fetches the key set from the authority; the second component
counts outbound key-set fetches. -/
def get_jwks (a : Authority) (fetches : Nat) : List Jwk × Nat :=
  (a.jwks, fetches + 1)

/-- The key-selection loop of decode_token: the first key whose kid equals the
token's declared kid. -/
def findRsaKey (keys : List Jwk) (kid : String) : Option Jwk :=
  keys.find? (fun k => k.kid == kid)

/-- The verify_aud option decode_token passes to jose.jwt.decode. The source writes
the literal False in the options dictionary, independent of the settings value. -/
def decodeTokenVerifyAud (_s : Settings) : Bool := false

/-- auth.decode_token: fetch the key set once, resolve the declared kid, then decode
with the allow-list consisting of the single configured algorithm, the configured
client id as audience, and the hardcoded verify_aud option. Returns the outcome and
the number of key-set fetches performed. -/
def decode_token (checkSig : Token → Jwk → Bool) (s : Settings) (a : Authority)
    (t : Token) (now : Int) : Except AuthError TokenPayload × Nat :=
  let (jwks, fetches) := get_jwks a 0
  match findRsaKey jwks t.kid with
  | none => (.error .unknownKey, fetches)
  | some rsaKey =>
    (match jose_decode checkSig t rsaKey [s.jwt_algorithm] s.keycloak_client_id
        (decodeTokenVerifyAud s) now with
     | .error e => .error (.invalidToken e)
     | .ok p => .ok p,
     fetches)

/-- A concrete settings value using the default algorithm RS256. -/
def sampleSettings : Settings :=
  { keycloak_url := "http://kc", keycloak_realm := "demo", keycloak_client_id := "app",
    keycloak_client_secret := "cs", keycloak_admin_user := "admin",
    keycloak_admin_password := "pw" }

/-- A concrete signing key with key id "k1". -/
def sampleKey : Jwk := { kid := "k1", kty := "RSA", use := "sig", n := "m", e := "AQAB" }

/-- A concrete authority whose key set holds exactly sampleKey. -/
def sampleAuthority : Authority := ⟨[sampleKey]⟩

/-- Signature relation declaring every signature invalid. -/
def rejectSig : Token → Jwk → Bool := fun _ _ => false

/-- Signature relation declaring every signature valid. -/
def acceptSig : Token → Jwk → Bool := fun _ _ => true

/-- C3: a token whose declared signing algorithm differs from the single configured
algorithm (the whole allow-list passed to the library) is never accepted: verification
fails for every such token, and when the declared key id does resolve in the key set the
failure is precisely the algorithm-not-allowed error. In particular a token declaring
"none" or a symmetric algorithm is never accepted under the default RS256. -/
theorem C3_alg_allowlist (checkSig : Token → Jwk → Bool) (s : Settings) (a : Authority)
    (t : Token) (now : Int) (halg : t.alg ≠ s.jwt_algorithm) :
    (∀ p, (decode_token checkSig s a t now).1 ≠ .ok p)
    ∧ (findRsaKey a.jwks t.kid ≠ none →
        (decode_token checkSig s a t now).1 = .error (.invalidToken .algNotAllowed)) := by
  unfold decode_token get_jwks
  cases hf : findRsaKey a.jwks t.kid with
  | none => simp [hf]
  | some k => simp [hf, jose_decode, halg]

/-- A concrete token declaring the forged algorithm "none" with a key id present in the
sample key set. -/
def noneAlgToken : Token :=
  { alg := "none", kid := "k1", exp := 1000, aud := none, claims := ⟨none⟩, sig := "sg" }

/-- Witness for C3: the "none"-algorithm token is rejected with the algorithm error even
though its key id resolves and its signature would verify. -/
theorem C3_alg_allowlist_witness :
    noneAlgToken.alg ≠ sampleSettings.jwt_algorithm
    ∧ (decode_token acceptSig sampleSettings sampleAuthority noneAlgToken 0).1
        = .error (.invalidToken .algNotAllowed) :=
  ⟨by decide,
   (C3_alg_allowlist acceptSig sampleSettings sampleAuthority noneAlgToken 0
      (by decide)).2 (by decide)⟩

/-- C4: a token whose declared key id matches no key in the authority's key set fails
with the unknown-signing-key error, and exactly one key-set fetch from the authority is
performed during the failed verification. -/
theorem C4_unknown_kid (checkSig : Token → Jwk → Bool) (s : Settings) (a : Authority)
    (t : Token) (now : Int) (h : ∀ k ∈ a.jwks, k.kid ≠ t.kid) :
    decode_token checkSig s a t now = (.error .unknownKey, 1) := by
  have hf : findRsaKey a.jwks t.kid = none := by
    apply List.find?_eq_none.mpr
    intro k hk
    simp only [beq_iff_eq]
    exact h k hk
  unfold decode_token get_jwks
  simp only [hf]

/-- A concrete token declaring a key id absent from the sample key set. -/
def missingKidToken : Token :=
  { alg := "RS256", kid := "k9", exp := 1000, aud := none, claims := ⟨none⟩, sig := "sg" }

/-- Witness for C4: the token with the unknown key id is rejected after exactly one
key-set fetch. -/
theorem C4_unknown_kid_witness :
    (∀ k ∈ sampleAuthority.jwks, k.kid ≠ missingKidToken.kid)
    ∧ decode_token acceptSig sampleSettings sampleAuthority missingKidToken 0
        = (.error .unknownKey, 1) :=
  ⟨by decide,
   C4_unknown_kid acceptSig sampleSettings sampleAuthority missingKidToken 0 (by decide)⟩

/-- The outcome component of decode_token, with the single key-set fetch reduced away. -/
theorem decode_token_fst (checkSig : Token → Jwk → Bool) (s : Settings) (a : Authority)
    (t : Token) (now : Int) :
    (decode_token checkSig s a t now).1 =
      (match findRsaKey a.jwks t.kid with
       | none => .error .unknownKey
       | some k =>
         match jose_decode checkSig t k [s.jwt_algorithm] s.keycloak_client_id
             (decodeTokenVerifyAud s) now with
         | .error e => .error (.invalidToken e)
         | .ok p => .ok p) := by
  unfold decode_token get_jwks
  cases hf : findRsaKey a.jwks t.kid <;> simp [hf]

/-- An expired token is never an accepted outcome of jose.jwt.decode. -/
theorem jose_decode_ne_ok_of_expired (checkSig : Token → Jwk → Bool) (t : Token) (key : Jwk)
    (algorithms : List String) (expectedAud : String) (verifyAud : Bool) (now : Int)
    (hexp : t.exp < now) (p : TokenPayload) :
    jose_decode checkSig t key algorithms expectedAud verifyAud now ≠ .ok p := by
  unfold jose_decode
  rw [if_pos hexp]
  split
  · simp
  · split <;> simp

/-- With an allowed algorithm and a valid signature, an expired token yields exactly the
expired error from jose.jwt.decode. -/
theorem jose_decode_expired (checkSig : Token → Jwk → Bool) (t : Token) (key : Jwk)
    (algorithms : List String) (expectedAud : String) (verifyAud : Bool) (now : Int)
    (halg : t.alg ∈ algorithms) (hsig : checkSig t key = true)
    (hexp : t.exp < now) :
    jose_decode checkSig t key algorithms expectedAud verifyAud now
      = .error .expiredSignature := by
  simp [jose_decode, halg, hsig, hexp]

/-- With the verify_aud option cleared, jose.jwt.decode never produces the
invalid-audience error. -/
theorem jose_decode_no_aud_error (checkSig : Token → Jwk → Bool) (t : Token) (key : Jwk)
    (algorithms : List String) (expectedAud : String) (now : Int) :
    jose_decode checkSig t key algorithms expectedAud false now
      ≠ .error .invalidAudience := by
  unfold jose_decode
  split
  · simp
  · split
    · simp
    · split
      · simp
      · simp

/-- A concrete token with an expiry in the past relative to time 100, declaring the
configured algorithm and a key id present in the sample key set. -/
def expiredToken : Token :=
  { alg := "RS256", kid := "k1", exp := 0, aud := none, claims := ⟨none⟩, sig := "bad" }

/-- C5 counterexample: an expired token whose signature is invalid is rejected with the
invalid-signature error, not the expired error — the library verifies the signature
before validating the expiry claim, so the claim that verification fails with the
Expired error regardless of signature validity is false at this input. -/
theorem C5_counterexample :
    expiredToken.exp < 100
    ∧ (decode_token rejectSig sampleSettings sampleAuthority expiredToken 100).1
        = .error (.invalidToken .invalidSignature)
    ∧ AuthError.invalidToken .invalidSignature ≠ AuthError.invalidToken .expiredSignature := by
  refine ⟨by decide, by rfl, by decide⟩

/-- C5 (amended): a token whose expiry claim lies in the past is never accepted —
verification always fails for it; the failure is the expired error precisely when the
declared key id resolves, the declared algorithm is the configured one and the signature
is valid, whereas with an invalid signature the failure is an invalid-signature error,
raised before the expiry claim is examined. -/
theorem C5_expired_rejected (checkSig : Token → Jwk → Bool) (s : Settings) (a : Authority)
    (t : Token) (now : Int) (hexp : t.exp < now) :
    (∀ p, (decode_token checkSig s a t now).1 ≠ .ok p)
    ∧ (∀ k, findRsaKey a.jwks t.kid = some k → t.alg = s.jwt_algorithm →
        checkSig t k = true →
        (decode_token checkSig s a t now).1 = .error (.invalidToken .expiredSignature)) := by
  constructor
  · intro p
    rw [decode_token_fst]
    cases hf : findRsaKey a.jwks t.kid with
    | none => simp
    | some k =>
      cases hj : jose_decode checkSig t k [s.jwt_algorithm] s.keycloak_client_id
          (decodeTokenVerifyAud s) now with
      | error e => simp [hj]
      | ok q =>
        exact absurd hj (jose_decode_ne_ok_of_expired checkSig t k [s.jwt_algorithm]
          s.keycloak_client_id (decodeTokenVerifyAud s) now hexp q)
  · intro k hk halg hsig
    rw [decode_token_fst]
    simp only [hk]
    rw [jose_decode_expired checkSig t k [s.jwt_algorithm] s.keycloak_client_id
      (decodeTokenVerifyAud s) now (by simp [halg]) hsig hexp]

/-- Witness for C5 (amended): the same expired token with a valid signature fails with
the expired error. -/
theorem C5_expired_rejected_witness :
    expiredToken.exp < 100
    ∧ (decode_token acceptSig sampleSettings sampleAuthority expiredToken 100).1
        = .error (.invalidToken .expiredSignature) :=
  ⟨by decide,
   (C5_expired_rejected acceptSig sampleSettings sampleAuthority expiredToken 100
      (by decide)).2 sampleKey (by decide) (by decide) (by decide)⟩

/-- C6 counterexample: the claim that some configuration setting determines whether the
audience claim is verified is false — the verify_aud option decode_token passes is the
same for every settings value, so no two configurations can differ on it. -/
theorem C6_counterexample :
    ¬ ∃ s₁ s₂ : Settings, decodeTokenVerifyAud s₁ ≠ decodeTokenVerifyAud s₂ := by
  rintro ⟨s₁, s₂, h⟩
  exact h rfl

/-- C6 (amended): the permissive audience check is hardcoded rather than configured:
decode_token passes the literal false as the verify_aud option for every settings value,
and consequently verification never fails with the invalid-audience error. -/
theorem C6_aud_hardcoded (checkSig : Token → Jwk → Bool) (s : Settings) (a : Authority)
    (t : Token) (now : Int) :
    decodeTokenVerifyAud s = false
    ∧ (decode_token checkSig s a t now).1 ≠ .error (.invalidToken .invalidAudience) := by
  refine ⟨rfl, ?_⟩
  rw [decode_token_fst]
  cases hf : findRsaKey a.jwks t.kid with
  | none => simp
  | some k =>
    cases hj : jose_decode checkSig t k [s.jwt_algorithm] s.keycloak_client_id
        (decodeTokenVerifyAud s) now with
    | ok q => simp [hj]
    | error e =>
      simp only [hj, ne_eq, Except.error.injEq, AuthError.invalidToken.injEq]
      intro he
      rw [he] at hj
      exact jose_decode_no_aud_error checkSig t k [s.jwt_algorithm]
        s.keycloak_client_id now hj

/-! ## Admin client (keycloak_admin.py) and the user-creation route (routes/users.py)

The remote authority is abstracted by a table of responses, one per request kind, and
each embedded function additionally returns the list of outbound requests (effects) it
issued, in order. This makes the control flow of the Python code — which calls happen,
in which order, and which failures propagate — the subject of the theorems. -/

/-- One outbound request to the authority. -/
inductive Effect where
  | tokenFetch
  | usersGet
  | userPost
  | userQuery (username : String)
  | passwordPut (userId : String)
  | roleGet (name : String)
  | roleMappingPost (userId : String)
  | groupsGet
  | groupPut (userId : String) (groupId : String)
  | userDelete (userId : String)
deriving Repr, DecidableEq

/-- A user record as returned by the authority's user collection. -/
structure KUser where
  id : String
  username : String
deriving Repr, DecidableEq

/-- A realm role record. -/
structure RoleRep where
  id : String
  name : String
deriving Repr, DecidableEq

/-- A group record. -/
structure GroupRep where
  id : String
  name : String
deriving Repr, DecidableEq

/-- The authority's responses, one entry per request kind the admin client issues:
status codes for mutations, bodies for reads. Role lookups answer some role body on
HTTP 200 and none otherwise (the Python code appends the body only on status 200 and
swallows exceptions). -/
structure KcApi where
  adminToken : String
  listUsersStatus : Nat
  allUsers : List KUser
  postUserStatus : Nat
  usersByUsername : String → List KUser
  passwordStatus : Nat
  roleGetResp : String → Option RoleRep
  roleMappingStatus : Nat
  groupsStatus : Nat
  groups : List GroupRep
  groupPutStatus : Nat

/-- Failures an admin-client call can raise. -/
inductive AdminErr where
  | httpStatus (status : Nat)
  | userNotFoundAfterCreation
deriving Repr, DecidableEq

/-- httpx success statuses (2xx). -/
def isSuccessStatus (s : Nat) : Bool := 200 ≤ s && s < 300

/-- response.raise_for_status: raises unless the status is a success status. -/
def raise_for_status (s : Nat) : Except AdminErr Unit :=
  if isSuccessStatus s then .ok () else .error (.httpStatus s)

/-- keycloak_admin._admin_token: posts the password grant for the admin account and
returns the access token — one token fetch per call, no cache consulted. -/
def _admin_token (api : KcApi) : String × List Effect :=
  (api.adminToken, [.tokenFetch])

/-- keycloak_admin._admin_headers: builds headers carrying a token from _admin_token. -/
def _admin_headers (api : KcApi) : String × List Effect :=
  let (tok, tr) := _admin_token api
  ("Bearer " ++ tok, tr)

/-- keycloak_admin.list_users. -/
def kc_list_users (api : KcApi) (_search : Option String) :
    Except AdminErr (List KUser) × List Effect :=
  let (_h, tr0) := _admin_headers api
  let tr := tr0 ++ [.usersGet]
  match raise_for_status api.listUsersStatus with
  | .error e => (.error e, tr)
  | .ok _ => (.ok api.allUsers, tr)

/-- The status check of keycloak_admin.create_user: 201 and 409 pass, any other status
goes through raise_for_status. -/
def checkCreateStatus (status : Nat) : Except AdminErr Unit :=
  if status = 201 || status = 409 then .ok () else raise_for_status status

/-- keycloak_admin.create_user: post the user payload, accept created or conflict,
re-read the collection filtered by username, fail hard when it is empty, otherwise
return the first record's id. Only the username takes part in the authority's conflict
and query behaviour; the profile fields ride along in the payload. -/
def kc_create_user (api : KcApi) (username _email _first_name _last_name : String)
    (_enabled : Bool) : Except AdminErr String × List Effect :=
  let (_h, tr0) := _admin_headers api
  let tr := tr0 ++ [.userPost]
  match checkCreateStatus api.postUserStatus with
  | .error e => (.error e, tr)
  | .ok _ =>
    let tr := tr ++ [.userQuery username]
    match api.usersByUsername username with
    | [] => (.error .userNotFoundAfterCreation, tr)
    | u :: _ => (.ok u.id, tr)

/-- keycloak_admin.set_user_password. -/
def kc_set_user_password (api : KcApi) (user_id _password : String) (_temporary : Bool) :
    Except AdminErr Unit × List Effect :=
  let (_h, tr0) := _admin_headers api
  (raise_for_status api.passwordStatus, tr0 ++ [.passwordPut user_id])

/-- The role-fetch loop of keycloak_admin.assign_roles_to_user: empty names are skipped
without a request; for the rest a lookup is issued and only a 200 body is collected —
misses and errors are silently skipped. -/
def fetchRoles (api : KcApi) : List String → List RoleRep × List Effect
  | [] => ([], [])
  | n :: rest =>
    if n = "" then fetchRoles api rest
    else
      let (rs, tr) := fetchRoles api rest
      match api.roleGetResp n with
      | some r => (r :: rs, .roleGet n :: tr)
      | none => (rs, .roleGet n :: tr)

/-- The status check of the role-mapping post: 204 and 409 pass. -/
def checkAssignStatus (status : Nat) : Except AdminErr Unit :=
  if status = 204 || status = 409 then .ok () else raise_for_status status

/-- keycloak_admin.assign_roles_to_user: nothing happens for an empty name list; the
resolved role bodies are posted only when at least one name resolved. -/
def kc_assign_roles_to_user (api : KcApi) (user_id : String) (role_names : List String) :
    Except AdminErr Unit × List Effect :=
  match role_names with
  | [] => (.ok (), [])
  | _ :: _ =>
    let (_h, tr0) := _admin_headers api
    let (roles, trF) := fetchRoles api role_names
    let tr := tr0 ++ trF
    match roles with
    | [] => (.ok (), tr)
    | _ :: _ => (checkAssignStatus api.roleMappingStatus, tr ++ [.roleMappingPost user_id])

/-- keycloak_admin.list_groups. -/
def kc_list_groups (api : KcApi) : Except AdminErr (List GroupRep) × List Effect :=
  let (_h, tr0) := _admin_headers api
  let tr := tr0 ++ [.groupsGet]
  match raise_for_status api.groupsStatus with
  | .error e => (.error e, tr)
  | .ok _ => (.ok api.groups, tr)

/-- The status check of the group-membership put: 204 and 409 pass. -/
def checkGroupPutStatus (status : Nat) : Except AdminErr Unit :=
  if status = 204 || status = 409 then .ok () else raise_for_status status

/-- keycloak_admin.add_user_to_group. -/
def kc_add_user_to_group (api : KcApi) (user_id group_id : String) :
    Except AdminErr Unit × List Effect :=
  let (_h, tr0) := _admin_headers api
  (checkGroupPutStatus api.groupPutStatus, tr0 ++ [.groupPut user_id group_id])

/-- The request body of the user-creation endpoint (routes/users.py UserCreateRequest),
with its declared defaults. -/
structure UserCreateRequest where
  username : String
  email : String
  firstName : String
  lastName : String
  password : String
  roles : List String := []
  groups : List String := []
  enabled : Bool := true
deriving Repr, DecidableEq

/-- Failures of the user-creation endpoint: 403 from the superadmin gate, or the 500
produced by the catch-all handler around the orchestration steps. -/
inductive RouteError where
  | forbidden
  | failedToCreate (e : AdminErr)
deriving Repr, DecidableEq

/-- The group_map dict comprehension of the route: name-to-id over the group listing,
later entries overriding earlier ones on duplicate names. -/
def group_map (gs : List GroupRep) (name : String) : Option String :=
  (gs.reverse.find? (fun g => g.name == name)).map (fun g => g.id)

/-- The group-membership loop of the route: names absent from the map are skipped;
an add failure propagates out of the loop. -/
def addGroupsLoop (api : KcApi) (user_id : String) (gmap : String → Option String) :
    List String → Except AdminErr Unit × List Effect
  | [] => (.ok (), [])
  | g :: rest =>
    match gmap g with
    | none => addGroupsLoop api user_id gmap rest
    | some gid =>
      match kc_add_user_to_group api user_id gid with
      | (.error e, tr) => (.error e, tr)
      | (.ok _, tr) =>
        let (r, tr2) := addGroupsLoop api user_id gmap rest
        (r, tr ++ tr2)

/-- The role-assignment step of the route: the assignment call runs only when some
roles were requested (Python: if user.roles). -/
def rolesStep (api : KcApi) (uid : String) (roles : List String) :
    Except AdminErr Unit × List Effect :=
  match roles with
  | [] => (.ok (), [])
  | _ :: _ => kc_assign_roles_to_user api uid roles

/-- The group-membership step of the route: runs only when some groups were requested;
lists all groups, builds the name map, and adds membership for resolving names. -/
def groupsStep (api : KcApi) (uid : String) (groups : List String) :
    Except AdminErr Unit × List Effect :=
  match groups with
  | [] => (.ok (), [])
  | _ :: _ =>
    match kc_list_groups api with
    | (.error e, tr4) => (.error e, tr4)
    | (.ok all_groups, tr4) =>
      let (r, tr5) := addGroupsLoop api uid (group_map all_groups) groups
      (r, tr4 ++ tr5)

/-- routes/users.create_user: require the superadmin role, then create the user, set the
password, assign roles when some were requested, and add group memberships for names
resolving in the group listing; every exception from those steps is caught by the single
handler and surfaced as a 500, and nothing is ever rolled back. On success the created
user id is returned. -/
def route_create_user (api : KcApi) (token : TokenPayload) (user : UserCreateRequest) :
    Except RouteError String × List Effect :=
  if is_superadmin token then
    match kc_create_user api user.username user.email user.firstName user.lastName
        user.enabled with
    | (.error e, tr) => (.error (.failedToCreate e), tr)
    | (.ok user_id, tr1) =>
      match kc_set_user_password api user_id user.password false with
      | (.error e, tr2) => (.error (.failedToCreate e), tr1 ++ tr2)
      | (.ok _, tr2) =>
        match rolesStep api user_id user.roles with
        | (.error e, tr3) => (.error (.failedToCreate e), tr1 ++ tr2 ++ tr3)
        | (.ok _, tr3) =>
          match groupsStep api user_id user.groups with
          | (.error e, tr4) => (.error (.failedToCreate e), tr1 ++ tr2 ++ tr3 ++ tr4)
          | (.ok _, tr4) => (.ok user_id, tr1 ++ tr2 ++ tr3 ++ tr4)
  else (.error .forbidden, [])

/-- Effects belonging to the role-assignment or group-membership steps. -/
def isAssignEffect : Effect → Bool
  | .roleGet _ => true
  | .roleMappingPost _ => true
  | .groupsGet => true
  | .groupPut _ _ => true
  | _ => false

/-- Password-setting effects. -/
def isPasswordEffect : Effect → Bool
  | .passwordPut _ => true
  | _ => false

/-- User-deletion effects. -/
def isDeleteEffect : Effect → Bool
  | .userDelete _ => true
  | _ => false

/-- Role-mapping mutations. -/
def isRoleMappingPost : Effect → Bool
  | .roleMappingPost _ => true
  | _ => false

/-- Admin-credential fetches. -/
def isTokenFetch : Effect → Bool
  | .tokenFetch => true
  | _ => false

/-- How many effects of a trace satisfy the given kind. -/
def countEffects (p : Effect → Bool) (tr : List Effect) : Nat :=
  (tr.filter p).length

theorem countEffects_append (p : Effect → Bool) (t1 t2 : List Effect) :
    countEffects p (t1 ++ t2) = countEffects p t1 + countEffects p t2 := by
  simp [countEffects, List.filter_append]

/-- The create call leaves one of two traces: post only, or post then re-read. -/
theorem kc_create_user_trace (api : KcApi) (username email fn ln : String) (en : Bool) :
    (kc_create_user api username email fn ln en).2 = [.tokenFetch, .userPost]
    ∨ (kc_create_user api username email fn ln en).2
        = [.tokenFetch, .userPost, .userQuery username] := by
  unfold kc_create_user _admin_headers _admin_token
  cases hc : checkCreateStatus api.postUserStatus with
  | error e => simp [hc]
  | ok _ => cases hu : api.usersByUsername username <;> simp [hc, hu]

/-- The password call's trace. -/
theorem kc_set_user_password_trace (api : KcApi) (uid pw : String) (tmp : Bool) :
    (kc_set_user_password api uid pw tmp).2 = [.tokenFetch, .passwordPut uid] := rfl

/-- Every effect of the role-fetch loop is a role lookup. -/
theorem fetchRoles_trace (api : KcApi) (names : List String) :
    ∀ e ∈ (fetchRoles api names).2, ∃ n, e = .roleGet n := by
  induction names with
  | nil => simp [fetchRoles]
  | cons n rest ih =>
    unfold fetchRoles
    by_cases hn : n = ""
    · simpa [hn] using ih
    · cases hr : api.roleGetResp n <;>
        · simp only [hn, if_neg, hr]
          intro e he
          rcases List.mem_cons.mp he with h | h
          · exact ⟨n, h⟩
          · exact ih e h

/-- Every effect of the role-assignment call is a credential fetch, a role lookup or the
role-mapping post. -/
theorem kc_assign_roles_trace (api : KcApi) (uid : String) (names : List String) :
    ∀ e ∈ (kc_assign_roles_to_user api uid names).2,
      e = .tokenFetch ∨ (∃ n, e = .roleGet n) ∨ e = .roleMappingPost uid := by
  unfold kc_assign_roles_to_user _admin_headers _admin_token
  cases names with
  | nil => simp
  | cons n rest =>
    cases hf : fetchRoles api (n :: rest) with
    | mk roles trF =>
      cases roles with
      | nil =>
        simp only [hf]
        intro e he
        rcases List.mem_cons.mp (by simpa using he) with h | h
        · exact Or.inl h
        · exact Or.inr (Or.inl (by
            have := fetchRoles_trace api (n :: rest)
            rw [hf] at this
            exact this e h))
      | cons r rs =>
        cases hs : checkAssignStatus api.roleMappingStatus <;>
          · simp only [hf, hs]
            intro e he
            simp only [List.cons_append, List.nil_append, List.mem_append,
              List.mem_cons, List.not_mem_nil, or_false] at he
            rcases he with h | h | h
            · exact Or.inl h
            · exact Or.inr (Or.inl (by
                have := fetchRoles_trace api (n :: rest)
                rw [hf] at this
                exact this e h))
            · exact Or.inr (Or.inr h)

/-- The group-listing call's trace. -/
theorem kc_list_groups_trace (api : KcApi) :
    (kc_list_groups api).2 = [.tokenFetch, .groupsGet] := by
  unfold kc_list_groups _admin_headers _admin_token
  cases hs : raise_for_status api.groupsStatus <;> simp [hs]

/-- The group-add call's trace. -/
theorem kc_add_user_to_group_trace (api : KcApi) (uid gid : String) :
    (kc_add_user_to_group api uid gid).2 = [.tokenFetch, .groupPut uid gid] := rfl

/-- Every effect of the group-membership loop is a credential fetch or a group put. -/
theorem addGroupsLoop_trace (api : KcApi) (uid : String) (gmap : String → Option String)
    (gs : List String) :
    ∀ e ∈ (addGroupsLoop api uid gmap gs).2,
      e = .tokenFetch ∨ ∃ u g, e = .groupPut u g := by
  induction gs with
  | nil => simp [addGroupsLoop]
  | cons g rest ih =>
    unfold addGroupsLoop
    cases hm : gmap g with
    | none => simpa [hm] using ih
    | some gid =>
      cases hk : kc_add_user_to_group api uid gid with
      | mk r tr =>
        have htr : tr = [.tokenFetch, .groupPut uid gid] := by
          have h2 : (kc_add_user_to_group api uid gid).2
              = [.tokenFetch, .groupPut uid gid] := rfl
          rw [hk] at h2
          exact h2
        subst htr
        cases r with
        | error e =>
          simp only [hk]
          intro e he
          rcases List.mem_cons.mp he with h | h
          · exact Or.inl h
          · simp only [List.mem_cons, List.not_mem_nil, or_false] at h
            exact Or.inr ⟨uid, gid, h⟩
        | ok _ =>
          simp only [hk]
          intro e he
          simp only [List.cons_append, List.nil_append, List.mem_cons] at he
          rcases he with h | h | h
          · exact Or.inl h
          · exact Or.inr ⟨uid, gid, h⟩
          · exact ih e h

/-- The create call issues neither password, assignment nor deletion requests. -/
theorem kc_create_user_effects (api : KcApi) (username email fn ln : String) (en : Bool) :
    ∀ e ∈ (kc_create_user api username email fn ln en).2,
      isAssignEffect e = false ∧ isPasswordEffect e = false
      ∧ isDeleteEffect e = false ∧ isRoleMappingPost e = false := by
  rcases kc_create_user_trace api username email fn ln en with h | h <;> rw [h] <;>
    simp [isAssignEffect, isPasswordEffect, isDeleteEffect, isRoleMappingPost]

/-- The password call issues neither assignment nor deletion requests. -/
theorem kc_set_user_password_effects (api : KcApi) (uid pw : String) (tmp : Bool) :
    ∀ e ∈ (kc_set_user_password api uid pw tmp).2,
      isAssignEffect e = false ∧ isDeleteEffect e = false ∧ isRoleMappingPost e = false := by
  rw [kc_set_user_password_trace]
  simp [isAssignEffect, isDeleteEffect, isRoleMappingPost]

/-- The roles step never issues a deletion. -/
theorem rolesStep_no_delete (api : KcApi) (uid : String) (roles : List String) :
    ∀ e ∈ (rolesStep api uid roles).2, isDeleteEffect e = false := by
  cases roles with
  | nil => simp [rolesStep]
  | cons n rest =>
    intro e he
    rcases kc_assign_roles_trace api uid (n :: rest) e he with h | ⟨m, h⟩ | h <;>
      subst h <;> rfl

/-- The groups step never issues a deletion. -/
theorem groupsStep_no_delete (api : KcApi) (uid : String) (groups : List String) :
    ∀ e ∈ (groupsStep api uid groups).2, isDeleteEffect e = false := by
  cases groups with
  | nil => simp [groupsStep]
  | cons g rest =>
    unfold groupsStep
    cases hl : kc_list_groups api with
    | mk resL trL =>
      have htrL : ∀ e ∈ trL, isDeleteEffect e = false := by
        have h2 : trL = [.tokenFetch, .groupsGet] := by
          have h3 := kc_list_groups_trace api
          rw [hl] at h3
          exact h3
        rw [h2]
        simp [isDeleteEffect]
      cases resL with
      | error e => simpa [hl] using htrL
      | ok all_groups =>
        cases hLoop : addGroupsLoop api uid (group_map all_groups) (g :: rest) with
        | mk r trP =>
          have htrP : ∀ e ∈ trP, isDeleteEffect e = false := by
            intro e he
            have := addGroupsLoop_trace api uid (group_map all_groups) (g :: rest)
            rw [hLoop] at this
            rcases this e he with h | ⟨u, gr, h⟩ <;> subst h <;> rfl
          simp only [hl, hLoop]
          intro e he
          rcases List.mem_append.mp (by simpa using he) with h | h
          · exact htrL e h
          · exact htrP e h

/-- The route never issues a user deletion: there is no rollback path. -/
theorem route_create_user_no_delete (api : KcApi) (token : TokenPayload)
    (user : UserCreateRequest) :
    ∀ e ∈ (route_create_user api token user).2, isDeleteEffect e = false := by
  unfold route_create_user
  by_cases ht : is_superadmin token
  case neg => simp [ht]
  rw [if_pos ht]
  rcases h1 : kc_create_user api user.username user.email user.firstName user.lastName
      user.enabled with ⟨res1, tr1⟩
  have htr1 : ∀ e ∈ tr1, isDeleteEffect e = false := by
    intro e he
    have h := kc_create_user_effects api user.username user.email user.firstName
      user.lastName user.enabled e (by rw [h1]; exact he)
    exact h.2.2.1
  cases res1 with
  | error e1 => simpa using htr1
  | ok uid =>
    rcases h2 : kc_set_user_password api uid user.password false with ⟨res2, tr2⟩
    have htr2 : ∀ e ∈ tr2, isDeleteEffect e = false := by
      intro e he
      have h := kc_set_user_password_effects api uid user.password false e
        (by rw [h2]; exact he)
      exact h.2.1
    cases res2 with
    | error e2 =>
      simp only [h2]
      intro e he
      rcases List.mem_append.mp (by simpa using he) with h | h
      · exact htr1 e h
      · exact htr2 e h
    | ok _ =>
      rcases h3 : rolesStep api uid user.roles with ⟨res3, tr3⟩
      have htr3 : ∀ e ∈ tr3, isDeleteEffect e = false := by
        intro e he
        exact rolesStep_no_delete api uid user.roles e (by rw [h3]; exact he)
      cases res3 with
      | error e3 =>
        simp only [h2, h3]
        intro e he
        rcases (by simpa using he : e ∈ tr1 ∨ e ∈ tr2 ∨ e ∈ tr3) with h | h | h
        · exact htr1 e h
        · exact htr2 e h
        · exact htr3 e h
      | ok _ =>
        rcases h4 : groupsStep api uid user.groups with ⟨res4, tr4⟩
        have htr4 : ∀ e ∈ tr4, isDeleteEffect e = false := by
          intro e he
          exact groupsStep_no_delete api uid user.groups e (by rw [h4]; exact he)
        cases res4 <;>
          · simp only [h2, h3, h4]
            intro e he
            rcases (by simpa using he : e ∈ tr1 ∨ e ∈ tr2 ∨ e ∈ tr3 ∨ e ∈ tr4) with
              h | h | h | h
            · exact htr1 e h
            · exact htr2 e h
            · exact htr3 e h
            · exact htr4 e h

/-- Route shape when the create step fails: the failure surfaces and the trace is the
create call's trace alone. -/
theorem route_shape_create_error (api : KcApi) (token : TokenPayload)
    (user : UserCreateRequest) (e : AdminErr) (ht : is_superadmin token = true)
    (h1 : (kc_create_user api user.username user.email user.firstName user.lastName
      user.enabled).1 = .error e) :
    route_create_user api token user
      = (.error (.failedToCreate e),
         (kc_create_user api user.username user.email user.firstName user.lastName
           user.enabled).2) := by
  unfold route_create_user
  rw [if_pos ht]
  rcases hk : kc_create_user api user.username user.email user.firstName user.lastName
      user.enabled with ⟨res1, tr1⟩
  rw [hk] at h1
  have hres : res1 = .error e := h1
  subst hres
  simp [hk]

/-- Route shape when create succeeds and the password step fails: the failure surfaces
and the trace is the create trace followed by the password trace. -/
theorem route_shape_password_error (api : KcApi) (token : TokenPayload)
    (user : UserCreateRequest) (uid : String) (e : AdminErr)
    (ht : is_superadmin token = true)
    (h1 : (kc_create_user api user.username user.email user.firstName user.lastName
      user.enabled).1 = .ok uid)
    (h2 : (kc_set_user_password api uid user.password false).1 = .error e) :
    route_create_user api token user
      = (.error (.failedToCreate e),
         (kc_create_user api user.username user.email user.firstName user.lastName
           user.enabled).2 ++ (kc_set_user_password api uid user.password false).2) := by
  unfold route_create_user
  rw [if_pos ht]
  rcases hk : kc_create_user api user.username user.email user.firstName user.lastName
      user.enabled with ⟨res1, tr1⟩
  rw [hk] at h1
  have hres : res1 = .ok uid := h1
  subst hres
  rcases hp : kc_set_user_password api uid user.password false with ⟨res2, tr2⟩
  rw [hp] at h2
  have hres2 : res2 = .error e := h2
  subst hres2
  simp [hk, hp]

/-- Route shape when all four steps succeed: the id from the create step is returned and
the trace is the concatenation of the four step traces. -/
theorem route_shape_success (api : KcApi) (token : TokenPayload)
    (user : UserCreateRequest) (uid : String) (ht : is_superadmin token = true)
    (h1 : (kc_create_user api user.username user.email user.firstName user.lastName
      user.enabled).1 = .ok uid)
    (h2 : (kc_set_user_password api uid user.password false).1 = .ok ())
    (h3 : (rolesStep api uid user.roles).1 = .ok ())
    (h4 : (groupsStep api uid user.groups).1 = .ok ()) :
    route_create_user api token user
      = (.ok uid,
         (kc_create_user api user.username user.email user.firstName user.lastName
           user.enabled).2 ++ (kc_set_user_password api uid user.password false).2
           ++ (rolesStep api uid user.roles).2 ++ (groupsStep api uid user.groups).2) := by
  unfold route_create_user
  rw [if_pos ht]
  rcases hk : kc_create_user api user.username user.email user.firstName user.lastName
      user.enabled with ⟨res1, tr1⟩
  rw [hk] at h1
  have hres : res1 = .ok uid := h1
  subst hres
  rcases hp : kc_set_user_password api uid user.password false with ⟨res2, tr2⟩
  rw [hp] at h2
  have hres2 : res2 = .ok () := h2
  subst hres2
  rcases hr : rolesStep api uid user.roles with ⟨res3, tr3⟩
  rw [hr] at h3
  have hres3 : res3 = .ok () := h3
  subst hres3
  rcases hg : groupsStep api uid user.groups with ⟨res4, tr4⟩
  rw [hg] at h4
  have hres4 : res4 = .ok () := h4
  subst hres4
  simp [hk, hp, hr, hg]

/-- When no requested name resolves, the role-fetch loop collects no role bodies. -/
theorem fetchRoles_all_none (api : KcApi) (names : List String)
    (h : ∀ n ∈ names, api.roleGetResp n = none) :
    (fetchRoles api names).1 = [] := by
  induction names with
  | nil => rfl
  | cons n rest ih =>
    unfold fetchRoles
    by_cases hn : n = ""
    · simpa [hn] using ih (fun m hm => h m (List.mem_cons_of_mem n hm))
    · cases hf : fetchRoles api rest with
      | mk rs tr =>
        have hrs : rs = [] := by
          have h5 := ih (fun m hm => h m (List.mem_cons_of_mem n hm))
          rw [hf] at h5
          exact h5
        subst hrs
        simp [hn, hf, h n (List.mem_cons_self n rest)]

/-- A role-lookup miss never aborts the assignment batch: the call's outcome is either
the untouched success (no roles resolved, or no names given) or the outcome of the one
role-mapping post. -/
theorem kc_assign_roles_outcome (api : KcApi) (uid : String) (names : List String) :
    (kc_assign_roles_to_user api uid names).1 = .ok ()
    ∨ (kc_assign_roles_to_user api uid names).1 = checkAssignStatus api.roleMappingStatus := by
  unfold kc_assign_roles_to_user
  cases names with
  | nil => simp
  | cons n rest =>
    cases hf : fetchRoles api (n :: rest) with
    | mk roles trF => cases roles <;> simp [hf]

/-- When no requested name resolves, the assignment call succeeds without issuing any
role-mapping post. -/
theorem kc_assign_all_unresolved (api : KcApi) (uid : String) (names : List String)
    (h : ∀ n ∈ names, api.roleGetResp n = none) :
    (kc_assign_roles_to_user api uid names).1 = .ok ()
    ∧ ∀ f ∈ (kc_assign_roles_to_user api uid names).2, isRoleMappingPost f = false := by
  constructor
  · unfold kc_assign_roles_to_user
    cases names with
    | nil => rfl
    | cons n rest =>
      cases hf : fetchRoles api (n :: rest) with
      | mk roles trF =>
        have hroles : roles = [] := by
          have h5 := fetchRoles_all_none api (n :: rest) h
          rw [hf] at h5
          exact h5
        subst hroles
        simp [hf]
  · intro f hf
    cases names with
    | nil => simp [kc_assign_roles_to_user] at hf
    | cons n rest =>
      rcases kc_assign_roles_trace api uid (n :: rest) f hf with h5 | ⟨m, h5⟩ | h5
      · subst h5; rfl
      · subst h5; rfl
      · exfalso
        revert hf
        unfold kc_assign_roles_to_user
        cases hft : fetchRoles api (n :: rest) with
        | mk roles trF =>
          have hroles : roles = [] := by
            have h6 := fetchRoles_all_none api (n :: rest) h
            rw [hft] at h6
            exact h6
          subst hroles
          subst h5
          simp only [hft]
          intro hmem
          have : ∃ m, (Effect.roleMappingPost uid) = Effect.roleGet m ∨ False := by
            rcases (by simpa [_admin_headers, _admin_token] using hmem :
                Effect.roleMappingPost uid = Effect.tokenFetch
                ∨ Effect.roleMappingPost uid ∈ trF) with h7 | h7
            · exact absurd h7 (by simp)
            · have h8 := fetchRoles_trace api (n :: rest)
              rw [hft] at h8
              rcases h8 _ h7 with ⟨m, hm⟩
              exact ⟨m, Or.inl hm⟩
          rcases this with ⟨m, hm | hm⟩
          · exact absurd hm (by simp)
          · exact hm

/-- The user-listing call's trace. -/
theorem kc_list_users_trace (api : KcApi) (search : Option String) :
    (kc_list_users api search).2 = [.tokenFetch, .usersGet] := by
  unfold kc_list_users _admin_headers _admin_token
  cases hs : raise_for_status api.listUsersStatus <;> simp [hs]

/-- A token payload carrying the realm-admin role. -/
def adminPayload : TokenPayload := ⟨some ⟨some ["realm-admin"]⟩⟩

/-- Authority responses for the role-assignment-failure scenario: user creation and
password reset succeed, the requested role resolves, but the role-mapping post answers
a server error. -/
def c2api : KcApi :=
  { adminToken := "tk", listUsersStatus := 200, allUsers := [],
    postUserStatus := 201,
    usersByUsername := fun _ => [{ id := "u1", username := "john" }],
    passwordStatus := 204,
    roleGetResp := fun _ => some { id := "r1", name := "dev" },
    roleMappingStatus := 500,
    groupsStatus := 200, groups := [], groupPutStatus := 204 }

/-- The request of the role-assignment-failure scenario. -/
def c2req : UserCreateRequest :=
  { username := "john", email := "j@x.io", firstName := "J", lastName := "D",
    password := "p1", roles := ["dev"] }

/-- C2 counterexample: with creation and password succeeded and the role-mapping post
failing, the endpoint surfaces a 500 failure instead of returning the created user id as
success — refuting the claim that a role-assignment failure still returns the user id. -/
theorem C2_counterexample :
    (kc_create_user c2api "john" "j@x.io" "J" "D" true).1 = .ok "u1"
    ∧ (kc_set_user_password c2api "u1" "p1" false).1 = .ok ()
    ∧ (kc_assign_roles_to_user c2api "u1" ["dev"]).1 = .error (.httpStatus 500)
    ∧ (route_create_user c2api adminPayload c2req).1
        = .error (.failedToCreate (.httpStatus 500))
    ∧ ∀ uid, (route_create_user c2api adminPayload c2req).1 ≠ .ok uid := by
  refine ⟨rfl, rfl, rfl, rfl, ?_⟩
  intro uid h
  rw [show (route_create_user c2api adminPayload c2req).1
      = .error (.failedToCreate (.httpStatus 500)) from rfl] at h
  cases h

/-- C2 (amended): a failure of the create step aborts the operation before the password,
role or group steps and surfaces the failure; a failure of the password step aborts
before any role or group work and surfaces the failure; no failure ever triggers a
rollback (the route never issues a deletion); and when the later steps issue no failing
request — in particular when role names merely fail to resolve and no groups are given —
the operation returns the created user id. -/
theorem C2_failure_policy :
    (∀ api token user e, is_superadmin token = true →
      (kc_create_user api user.username user.email user.firstName user.lastName
        user.enabled).1 = .error e →
      (route_create_user api token user).1 = .error (.failedToCreate e)
      ∧ ∀ f ∈ (route_create_user api token user).2,
          isAssignEffect f = false ∧ isPasswordEffect f = false)
    ∧ (∀ api token user uid e, is_superadmin token = true →
      (kc_create_user api user.username user.email user.firstName user.lastName
        user.enabled).1 = .ok uid →
      (kc_set_user_password api uid user.password false).1 = .error e →
      (route_create_user api token user).1 = .error (.failedToCreate e)
      ∧ ∀ f ∈ (route_create_user api token user).2, isAssignEffect f = false)
    ∧ (∀ api token user, ∀ f ∈ (route_create_user api token user).2,
        isDeleteEffect f = false)
    ∧ (∀ api token user uid, is_superadmin token = true →
      (kc_create_user api user.username user.email user.firstName user.lastName
        user.enabled).1 = .ok uid →
      (kc_set_user_password api uid user.password false).1 = .ok () →
      (∀ n ∈ user.roles, api.roleGetResp n = none) →
      user.groups = [] →
      (route_create_user api token user).1 = .ok uid) := by
  refine ⟨?_, ?_, ?_, ?_⟩
  · intro api token user e ht h1
    rw [route_shape_create_error api token user e ht h1]
    refine ⟨rfl, ?_⟩
    intro f hf
    have h := kc_create_user_effects api user.username user.email user.firstName
      user.lastName user.enabled f hf
    exact ⟨h.1, h.2.1⟩
  · intro api token user uid e ht h1 h2
    rw [route_shape_password_error api token user uid e ht h1 h2]
    refine ⟨rfl, ?_⟩
    intro f hf
    rcases List.mem_append.mp hf with h | h
    · exact (kc_create_user_effects api user.username user.email user.firstName
        user.lastName user.enabled f h).1
    · exact (kc_set_user_password_effects api uid user.password false f h).1
  · intro api token user
    exact route_create_user_no_delete api token user
  · intro api token user uid ht h1 h2 hroles hgroups
    have h3 : (rolesStep api uid user.roles).1 = .ok () := by
      cases hr : user.roles with
      | nil => rfl
      | cons n rest =>
        rw [hr] at hroles
        exact (kc_assign_all_unresolved api uid (n :: rest) hroles).1
    have h4 : (groupsStep api uid user.groups).1 = .ok () := by
      rw [hgroups]
      rfl
    rw [route_shape_success api token user uid ht h1 h2 h3 h4]

/-- Authority responses for the create-failure scenario: the user post answers a server
error. -/
def c2FailApi : KcApi :=
  { adminToken := "tk", listUsersStatus := 200, allUsers := [],
    postUserStatus := 500,
    usersByUsername := fun _ => [],
    passwordStatus := 204,
    roleGetResp := fun _ => none,
    roleMappingStatus := 204,
    groupsStatus := 200, groups := [], groupPutStatus := 204 }

/-- Witness for C2 (amended): a failing create post surfaces as a 500 and the trace holds
no password, role or group request. -/
theorem C2_failure_policy_witness :
    (route_create_user c2FailApi adminPayload c2req).1
      = .error (.failedToCreate (.httpStatus 500))
    ∧ ∀ f ∈ (route_create_user c2FailApi adminPayload c2req).2,
        isAssignEffect f = false ∧ isPasswordEffect f = false :=
  C2_failure_policy.1 c2FailApi adminPayload c2req (.httpStatus 500) rfl rfl

/-- C7 counterexample: two successive admin-client operations, performed back to back
(so any previously obtained credential would still be unexpired), each perform their own
fresh credential fetch from the authority — one fetch per call, two fetches in total —
refuting the claim that an unexpired credential is reused across calls. -/
theorem C7_counterexample :
    countEffects isTokenFetch (kc_list_users c2api none).2 = 1
    ∧ countEffects isTokenFetch
        ((kc_list_users c2api none).2 ++ (kc_list_users c2api none).2) = 2 :=
  ⟨rfl, rfl⟩

/-- C7 (amended): the admin credential is not cached anywhere: every admin-client
operation obtains a fresh token from the authority, performing exactly one credential
fetch per call regardless of any earlier call, so consecutive operations fetch once
each. -/
theorem C7_no_credential_reuse (api : KcApi) (search : Option String)
    (uid pw username email fn ln gid : String) (tmp en : Bool) :
    countEffects isTokenFetch (kc_list_users api search).2 = 1
    ∧ countEffects isTokenFetch (kc_set_user_password api uid pw tmp).2 = 1
    ∧ countEffects isTokenFetch (kc_create_user api username email fn ln en).2 = 1
    ∧ countEffects isTokenFetch (kc_list_groups api).2 = 1
    ∧ countEffects isTokenFetch (kc_add_user_to_group api uid gid).2 = 1
    ∧ countEffects isTokenFetch
        ((kc_list_users api search).2 ++ (kc_list_users api search).2) = 2 := by
  refine ⟨?_, ?_, ?_, ?_, ?_, ?_⟩
  · rw [kc_list_users_trace]
    rfl
  · rw [kc_set_user_password_trace]
    rfl
  · rcases kc_create_user_trace api username email fn ln en with h | h <;> rw [h] <;>
      simp [countEffects, isTokenFetch]
  · rw [kc_list_groups_trace]
    rfl
  · rw [kc_add_user_to_group_trace]
    rfl
  · rw [countEffects_append, kc_list_users_trace]
    rfl

/-- C9: a requested role name that does not resolve on the authority is silently
skipped without aborting the batch — when no name resolves the assignment call succeeds
and issues no role-mapping post — and the compound user-creation operation invoked with
only unresolvable role names and no groups succeeds, returns the created user id, and
issues no role-mapping mutation. -/
theorem C9_unresolved_roles_skipped :
    (∀ api uid (names : List String), (∀ n ∈ names, api.roleGetResp n = none) →
      (kc_assign_roles_to_user api uid names).1 = .ok ()
      ∧ ∀ f ∈ (kc_assign_roles_to_user api uid names).2, isRoleMappingPost f = false)
    ∧ (∀ api token user uid, is_superadmin token = true →
      (kc_create_user api user.username user.email user.firstName user.lastName
        user.enabled).1 = .ok uid →
      (kc_set_user_password api uid user.password false).1 = .ok () →
      (∀ n ∈ user.roles, api.roleGetResp n = none) →
      user.groups = [] →
      (route_create_user api token user).1 = .ok uid
      ∧ ∀ f ∈ (route_create_user api token user).2, isRoleMappingPost f = false) := by
  constructor
  · intro api uid names h
    exact kc_assign_all_unresolved api uid names h
  · intro api token user uid ht h1 h2 hroles hgroups
    have h3 : (rolesStep api uid user.roles).1 = .ok () := by
      cases hr : user.roles with
      | nil => rfl
      | cons n rest =>
        rw [hr] at hroles
        exact (kc_assign_all_unresolved api uid (n :: rest) hroles).1
    have h4 : (groupsStep api uid user.groups).1 = .ok () := by
      rw [hgroups]
      rfl
    rw [route_shape_success api token user uid ht h1 h2 h3 h4]
    refine ⟨rfl, ?_⟩
    intro f hf
    rcases (by simpa using hf :
        f ∈ (kc_create_user api user.username user.email user.firstName user.lastName
              user.enabled).2
        ∨ f ∈ (kc_set_user_password api uid user.password false).2
        ∨ f ∈ (rolesStep api uid user.roles).2
        ∨ f ∈ (groupsStep api uid user.groups).2) with h | h | h | h
    · exact (kc_create_user_effects api user.username user.email user.firstName
        user.lastName user.enabled f h).2.2.2
    · exact (kc_set_user_password_effects api uid user.password false f h).2.2
    · cases hr : user.roles with
      | nil =>
        rw [hr] at h
        simp [rolesStep] at h
      | cons n rest =>
        rw [hr] at h hroles
        exact (kc_assign_all_unresolved api uid (n :: rest) hroles).2 f h
    · rw [hgroups] at h
      simp [groupsStep] at h

/-- Authority responses for the ghost-role scenario: creation and password succeed and
every role lookup misses. -/
def c9api : KcApi :=
  { adminToken := "tk", listUsersStatus := 200, allUsers := [],
    postUserStatus := 201,
    usersByUsername := fun _ => [{ id := "u1", username := "john" }],
    passwordStatus := 204,
    roleGetResp := fun _ => none,
    roleMappingStatus := 204,
    groupsStatus := 200, groups := [], groupPutStatus := 204 }

/-- The ghost-role request: a single nonexistent role name and no groups. -/
def c9req : UserCreateRequest :=
  { username := "john", email := "j@x.io", firstName := "J", lastName := "D",
    password := "p1", roles := ["ghost-role"] }

/-- Witness for C9: the ghost-role scenario succeeds with the created user id and its
trace holds no role-mapping post. -/
theorem C9_unresolved_roles_skipped_witness :
    (route_create_user c9api adminPayload c9req).1 = .ok "u1"
    ∧ ∀ f ∈ (route_create_user c9api adminPayload c9req).2, isRoleMappingPost f = false :=
  C9_unresolved_roles_skipped.2 c9api adminPayload c9req "u1" rfl rfl rfl
    (fun _ _ => rfl) rfl

/-! ## Idempotent user creation against the authority's state (keycloak_admin.create_user) -/

/-- The authority's user store: the user list and a fresh-id source. -/
structure Realm where
  users : List KUser
  nextId : Nat
deriving Repr, DecidableEq

/-- The user the authority would create next. -/
def newUserOf (r : Realm) (username : String) : KUser :=
  { id := "u" ++ Nat.repr r.nextId, username := username }

/-- Modelled from the spec: the authority's user-creation endpoint (absent from src,
which only calls it): it answers 201 and appends a freshly identified user when no
stored user carries the posted username, and answers the conflict status 409 leaving
the store unchanged when one does. -/
def realm_post_user (r : Realm) (username : String) : Nat × Realm :=
  if r.users.any (fun u => u.username == username) then (409, r)
  else (201, { users := r.users ++ [newUserOf r username], nextId := r.nextId + 1 })

/-- Modelled from the spec: the username query of the authority's user collection — the
stored users whose username equals the queried one. -/
def realm_users_by_username (r : Realm) (username : String) : List KUser :=
  r.users.filter (fun u => u.username == username)

/-- keycloak_admin.create_user run against the authority's store: post the payload,
accept created or conflict, re-read by username, fail hard on an empty read, otherwise
return the first record's id. The profile fields besides the username take no part in
conflict detection or the query and are omitted from the store model. -/
def kc_create_user_st (r : Realm) (username : String) : Except AdminErr String × Realm :=
  match realm_post_user r username with
  | (status, r2) =>
    match checkCreateStatus status with
    | .error e => (.error e, r2)
    | .ok _ =>
      match realm_users_by_username r2 username with
      | [] => (.error .userNotFoundAfterCreation, r2)
      | u :: _ => (.ok u.id, r2)

/-- How many stored users carry the username. -/
def countUsername (r : Realm) (username : String) : Nat :=
  (realm_users_by_username r username).length

theorem realm_users_ne_nil_of_any (r : Realm) (username : String)
    (h : r.users.any (fun u => u.username == username) = true) :
    realm_users_by_username r username ≠ [] := by
  intro hf
  rcases List.any_eq_true.mp h with ⟨u, hu, hp⟩
  rw [realm_users_by_username] at hf
  have := List.filter_eq_nil_iff.mp hf u hu
  exact this hp

theorem realm_users_nil_of_not_any (r : Realm) (username : String)
    (h : r.users.any (fun u => u.username == username) = false) :
    realm_users_by_username r username = [] := by
  rw [realm_users_by_username]
  apply List.filter_eq_nil_iff.mpr
  intro u hu hp
  have h2 : r.users.any (fun u => u.username == username) = true :=
    List.any_eq_true.mpr ⟨u, hu, hp⟩
  rw [h] at h2
  cases h2

/-- When a user with the username exists, the create call answers the conflict path:
it returns the first queried record's id and leaves the store unchanged. -/
theorem kc_create_user_st_conflict (r : Realm) (username : String)
    (h : r.users.any (fun u => u.username == username) = true) :
    kc_create_user_st r username
      = (match realm_users_by_username r username with
         | [] => (.error .userNotFoundAfterCreation, r)
         | u :: _ => (.ok u.id, r)) := by
  unfold kc_create_user_st realm_post_user
  rw [if_pos h]
  rfl

/-- The store after a fresh creation. -/
def freshRealm (r : Realm) (username : String) : Realm :=
  { users := r.users ++ [newUserOf r username], nextId := r.nextId + 1 }

/-- After a fresh creation, the username query returns exactly the new user. -/
theorem realm_users_after_fresh (r : Realm) (username : String)
    (h : r.users.any (fun u => u.username == username) = false) :
    realm_users_by_username (freshRealm r username) username = [newUserOf r username] := by
  rw [realm_users_by_username, freshRealm]
  simp only [List.filter_append]
  rw [show r.users.filter (fun u => u.username == username) = [] from
    realm_users_nil_of_not_any r username h]
  simp [newUserOf]

/-- When no user with the username exists, the create call stores a fresh user and
returns its id. -/
theorem kc_create_user_st_fresh (r : Realm) (username : String)
    (h : r.users.any (fun u => u.username == username) = false) :
    kc_create_user_st r username
      = (.ok (newUserOf r username).id, freshRealm r username) := by
  unfold kc_create_user_st realm_post_user
  rw [if_neg (by simp [h])]
  have hfil := realm_users_after_fresh r username h
  rw [freshRealm] at hfil
  simp [hfil, checkCreateStatus, freshRealm]


/-- The fresh user is stored in the fresh store and matches the username query. -/
theorem freshRealm_any (r : Realm) (username : String) :
    (freshRealm r username).users.any (fun u => u.username == username) = true := by
  apply List.any_eq_true.mpr
  refine ⟨newUserOf r username, by simp [freshRealm], by simp [newUserOf]⟩

/-- C8: user creation is idempotent. First part, against the authority's store: a second
call with the same input returns the same outcome as the first and leaves the store
exactly as the first call left it, the first call always returns an id, and the number
of stored users carrying the username after the call is the maximum of its previous
value and one — so a repeat never creates a second user with the same username. Second
part, at the response level: when the re-read after the create post finds no user, the
call fails hard and never returns an id. -/
theorem C8_idempotent_create :
    (∀ (r : Realm) (username : String),
      (kc_create_user_st (kc_create_user_st r username).2 username).1
          = (kc_create_user_st r username).1
      ∧ (kc_create_user_st (kc_create_user_st r username).2 username).2
          = (kc_create_user_st r username).2
      ∧ (∃ id, (kc_create_user_st r username).1 = .ok id)
      ∧ countUsername (kc_create_user_st r username).2 username
          = max (countUsername r username) 1)
    ∧ (∀ (api : KcApi) (username email fn ln : String) (en : Bool),
        api.usersByUsername username = [] →
        ∀ id, (kc_create_user api username email fn ln en).1 ≠ .ok id) := by
  constructor
  · intro r username
    by_cases hany : r.users.any (fun u => u.username == username) = true
    · have hc := kc_create_user_st_conflict r username hany
      have hne := realm_users_ne_nil_of_any r username hany
      cases hfil : realm_users_by_username r username with
      | nil => exact absurd hfil hne
      | cons u us =>
        rw [hfil] at hc
        have hstate : (kc_create_user_st r username).2 = r := by rw [hc]
        refine ⟨?_, ?_, ⟨u.id, by rw [hc]⟩, ?_⟩
        · rw [hstate]
        · rw [hstate]
          exact hstate
        · rw [hstate]
          simp only [countUsername, hfil, List.length_cons]
          omega
    · have hfalse : r.users.any (fun u => u.username == username) = false :=
        Bool.eq_false_iff.mpr hany
      have hc := kc_create_user_st_fresh r username hfalse
      have hstate : (kc_create_user_st r username).2 = freshRealm r username := by
        rw [hc]
      have hc2 := kc_create_user_st_conflict (freshRealm r username) username
        (freshRealm_any r username)
      rw [realm_users_after_fresh r username hfalse] at hc2
      have hc3 : kc_create_user_st (freshRealm r username) username
          = (.ok (newUserOf r username).id, freshRealm r username) := hc2
      refine ⟨?_, ?_, ⟨(newUserOf r username).id, by rw [hc]⟩, ?_⟩
      · rw [hstate, hc3, hc]
      · rw [hstate, hc3]
      · rw [hstate]
        simp only [countUsername, realm_users_after_fresh r username hfalse,
          List.length_singleton]
        rw [show (realm_users_by_username r username).length = 0 by
          rw [realm_users_nil_of_not_any r username hfalse]
          rfl]
        rfl
  · intro api username email fn ln en hempty id
    unfold kc_create_user
    cases hc : checkCreateStatus api.postUserStatus with
    | error e => simp [hc]
    | ok _ => simp [hc, hempty]

/-- Witness for C8: on the empty store, creating "john" twice returns the same outcome
both times; and against a response table whose re-read is empty the call returns no
id. -/
theorem C8_idempotent_create_witness :
    (kc_create_user_st (kc_create_user_st ⟨[], 0⟩ "john").2 "john").1
      = (kc_create_user_st ⟨[], 0⟩ "john").1
    ∧ (∀ id, (kc_create_user c2FailApi "john" "j@x.io" "J" "D" true).1 ≠ .ok id) :=
  ⟨(C8_idempotent_create.1 ⟨[], 0⟩ "john").1,
   C8_idempotent_create.2 c2FailApi "john" "j@x.io" "J" "D" true rfl⟩
